import Mathlib

/-! Application bootstrap (`server.js`).

A shallow embedding of the configuration logic of `server.js`:

* the allowed-origins list (`rawOrigins`, `allowedOrigins`) and the CORS `origin`
  function handed to the `cors` middleware (`corsOrigin`);
* the listening port (`PORT`);
* the two inline handlers (`GET /` and `GET /set-test-cookie`);
* the order of the start-up statements (`startup`).

JavaScript strings are embedded as Lean `String`s, `undefined` as `none`. The strings met
here are environment values (decoded from UTF-8) and header values (decoded from Latin-1), so
they are well-formed and equality of code-unit sequences is equality of `String`s.

The outcome of `await connectDB()` is an input of `startup`: `connectDB` is imported from
`./config/db.js` and `server.js` only awaits the promise it returns.
-/

namespace Server

/-! ## Process environment and JavaScript primitives -/

/-- The variables of `process.env` that `server.js` reads, as they stand once
`dotenv.config()` has run; `none` is an unset variable. -/
structure Env where
  NODE_ENV : Option String
  ALLOWED_ORIGINS : Option String
  PORT : Option String
deriving DecidableEq, Repr

/-- Truthiness of a value that is a string or `undefined`: only `undefined` and the empty
string are falsy. -/
def truthy : Option String → Bool
  | none => false
  | some s => !(s == "")

/-- The expression `v || d` for `v` a string or `undefined` and `d` a string. -/
def orDefault (v : Option String) (d : String) : String :=
  match v with
  | none => d
  | some s => if truthy (some s) then s else d

/-- The code points removed by `String.prototype.trim`: ECMAScript `WhiteSpace` and
`LineTerminator`. -/
def isWhiteSpace (c : Char) : Bool :=
  let n := c.toNat
  n == 0x09 || n == 0x0A || n == 0x0B || n == 0x0C || n == 0x0D || n == 0x20 ||
  n == 0xA0 || n == 0x1680 || (decide (0x2000 ≤ n) && decide (n ≤ 0x200A)) ||
  n == 0x2028 || n == 0x2029 || n == 0x202F || n == 0x205F || n == 0x3000 || n == 0xFEFF

/-- The method `String.prototype.trim`: white space is dropped at both ends. -/
def trim (s : String) : String :=
  ⟨((s.data.dropWhile isWhiteSpace).reverse.dropWhile isWhiteSpace).reverse⟩

/-- Splitting a character sequence at every occurrence of `sep`. -/
def splitChars (sep : Char) : List Char → List (List Char)
  | [] => [[]]
  | c :: cs =>
    if c = sep then [] :: splitChars sep cs
    else
      match splitChars sep cs with
      | [] => [[c]]
      | p :: ps => (c :: p) :: ps

/-- The method `String.prototype.split` with a one-character separator. -/
def split (s : String) (sep : Char) : List String :=
  (splitChars sep s.data).map String.mk

/-- The loop of `Array.prototype.indexOf`: `k` is the index of the head of `xs`. -/
def indexOfFrom (xs : List String) (x : String) (k : Nat) : Int :=
  match xs with
  | [] => -1
  | y :: ys => if y = x then (k : Int) else indexOfFrom ys x (k + 1)

/-- The method `Array.prototype.indexOf` on an array of strings: the first index holding a
string equal to `x`, or `-1`. -/
def indexOf (xs : List String) (x : String) : Int :=
  indexOfFrom xs x 0

/-! ## CORS configuration -/

/-- The constant `rawOrigins`: `process.env.ALLOWED_ORIGINS || "http://localhost:3000"`. -/
def rawOrigins (env : Env) : String :=
  orDefault env.ALLOWED_ORIGINS "http://localhost:3000"

/-- The constant `allowedOrigins`: `rawOrigins.split(",").map((u) => u.trim())`. -/
def allowedOrigins (env : Env) : List String :=
  (split (rawOrigins env) ',').map trim

/-- A JavaScript `Error` object, identified by its message. -/
structure Error where
  message : String
deriving DecidableEq, Repr

/-- The `origin` function of the `cors` options. `origin` is the request's `Origin` header
(`none` when the header is absent); the result is the call made to `callback`. -/
def corsOrigin (allowedOrigins : List String) (origin : Option String) {α : Type}
    (callback : Option Error → Bool → α) : α :=
  match origin with
  | none => callback none true
  | some o =>
    if !truthy (some o) then callback none true
    else if indexOf allowedOrigins o ≠ -1 then callback none true
    else callback (some ⟨"CORS policy: This origin is not allowed: " ++ o⟩) false

/-- A callback that records the arguments it is invoked with. -/
def recordCall (err : Option Error) (allow : Bool) : List (Option Error × Bool) :=
  [(err, allow)]

/-! ## Listening port -/

/-- The JavaScript numbers met when evaluating `PORT`: `NaN`, or a double holding a natural
number exactly. -/
inductive JSNumber where
  | nan
  | num (n : Nat)
deriving DecidableEq, Repr

/-- Truthiness of a number: `NaN` and `0` are falsy. -/
def JSNumber.truthy : JSNumber → Bool
  | .nan => false
  | .num n => !(n == 0)

/-- The mathematical value of a sequence of decimal digits. -/
def digitsValue (ds : List Char) : Nat :=
  ds.foldl (fun acc c => 10 * acc + (c.toNat - '0'.toNat)) 0

/-- The function `Number` on a string or `undefined` (ECMAScript `ToNumber`): `undefined` gives
`NaN`; a string is stripped of surrounding white space, the empty string gives `0` and a string
of decimal digits gives its value. The result is `none` for the strings not evaluated here:
signed, fractional, exponent, radix-prefixed and `Infinity` literals, strings that are no
numeric literal, and digit strings from `2 ^ 53` on, where rounding to a double sets in. -/
def Number (v : Option String) : Option JSNumber :=
  match v with
  | none => some .nan
  | some s =>
    let t := (trim s).data
    if t = [] then some (.num 0)
    else if t.all Char.isDigit then
      if digitsValue t < 2 ^ 53 then some (.num (digitsValue t)) else none
    else none

/-- The constant `PORT`: `Number(process.env.PORT) || 5000`. -/
def PORT (env : Env) : Option JSNumber :=
  (Number env.PORT).map fun v => if v.truthy then v else .num 5000

/-! ## Inline route handlers -/

/-- An incoming request, as far as a handler could look at it. -/
structure Request where
  method : String
  url : String
  headers : List (String × String)
  cookies : List (String × String)
deriving DecidableEq, Repr

/-- The options object passed to `res.cookie`; `maxAge` is in milliseconds. -/
structure CookieOptions where
  httpOnly : Bool
  secure : Bool
  sameSite : String
  maxAge : Nat
deriving DecidableEq, Repr

/-- One cookie set on a response by `res.cookie(name, value, options)`. -/
structure Cookie where
  name : String
  value : String
  options : CookieOptions
deriving DecidableEq, Repr

/-- The payload of a response: an object of string fields sent with `res.json`, or a text
sent with `res.send`. -/
inductive Body where
  | json (fields : List (String × String))
  | text (s : String)
deriving DecidableEq, Repr

/-- The response object `res`, as far as the inline handlers touch it. -/
structure Response where
  statusCode : Nat
  cookies : List Cookie
  body : Option Body
deriving DecidableEq, Repr

/-- The response object a handler receives when no middleware has touched it. -/
def Response.fresh : Response :=
  ⟨200, [], none⟩

/-- A route handler `(req, res) => ...`, run against the process environment; it returns the
response and the environment it leaves behind. -/
abbrev Handler := Request → Response → Env → Response × Env

/-- The handler of `GET /`: `res.json` of the object whose fields are `status: "ok"` and
`env: process.env.NODE_ENV || "development"`. -/
def healthHandler : Handler := fun _req res env =>
  (⟨res.statusCode, res.cookies,
    some (.json [("status", "ok"), ("env", orDefault env.NODE_ENV "development")])⟩, env)

/-- The handler of `GET /set-test-cookie`: one call of `res.cookie`, then
`res.send("cookie set")`. -/
def setTestCookieHandler : Handler := fun _req res env =>
  let options : CookieOptions :=
    ⟨true, env.NODE_ENV == some "production", "none", 1000 * 60 * 60 * 24⟩
  (⟨res.statusCode, res.cookies ++ [⟨"test", "1", options⟩], some (.text "cookie set")⟩, env)

/-! ## Start-up sequence -/

/-- What `await connectDB()` meets: the promise fulfils, rejects with a reason, or never
settles. -/
inductive Awaited where
  | fulfilled
  | rejected (reason : Error)
  | pending
deriving DecidableEq, Repr

/-- The effectful statements of the module body, in source order. -/
inductive Step where
  | dotenvConfig
  | connectDB
  | useJson (limit : String)
  | useUrlencoded (extended : Bool)
  | useCookieParser
  | setTrustProxy (hops : Nat)
  | useCors (allowed : List String) (credentials : Bool) (methods : List String)
  | useRouter (path : String) (router : String)
  | useStatic (path : String) (dir : String)
  | get (path : String)
  | listen (port : Option JSNumber)
deriving DecidableEq, Repr

/-- How the evaluation of the module body ends: `listening` when `app.listen` has returned
(what the operating system later reports on binding, such as a port in use, is not part of the
module body), `aborted` when the rejection met by the `await` is rethrown, `suspended` when the
`await` never resumes, `badPort` when `app.listen` throws `ERR_SOCKET_BAD_PORT`. -/
inductive Outcome where
  | listening
  | aborted (reason : Error)
  | suspended
  | badPort (port : JSNumber)
deriving DecidableEq, Repr

/-- One evaluation of the module body: the statements executed and how it ended. The outcome is
`none` where it hangs on a port number that `Number` does not evaluate here. -/
structure Run where
  steps : List Step
  outcome : Option Outcome
deriving DecidableEq, Repr

/-- The port check made by `listen` of Node on a number: the port has to be an integer from
`0` to `65535`, otherwise `listen` throws `ERR_SOCKET_BAD_PORT`. -/
def isLegalPort : JSNumber → Bool
  | .nan => false
  | .num n => decide (n ≤ 65535)

/-- The body of `server.js`, top to bottom. `db` is what `await connectDB()` meets; a rejection
is rethrown by the `await` and ends the evaluation there. The last statement,
`app.listen(PORT, ...)`, throws when `PORT` is no legal port. -/
def startup (env : Env) (db : Awaited) : Run :=
  let s0 : List Step := [.dotenvConfig, .connectDB]
  match db with
  | .rejected e => ⟨s0, some (.aborted e)⟩
  | .pending => ⟨s0, some .suspended⟩
  | .fulfilled =>
    let s1 := s0 ++ [.useJson "10mb", .useUrlencoded true, .useCookieParser]
    let s2 := if env.NODE_ENV == some "production" then s1 ++ [.setTrustProxy 1] else s1
    let s3 := s2 ++ [.useCors (allowedOrigins env) true
      ["GET", "POST", "PUT", "PATCH", "DELETE", "OPTIONS"]]
    let s4 := s3 ++ [.useRouter "/api/auth" "authRoutes", .useRouter "/api/form" "formRoutes"]
    let s5 := s4 ++ [.useStatic "/uploads" "uploads"]
    let s6 := s5 ++ [.get "/", .get "/set-test-cookie"]
    ⟨s6 ++ [.listen (PORT env)],
      (PORT env).map fun p => if isLegalPort p then .listening else .badPort p⟩

/-! ## Lemmas on the primitives -/

theorem truthy_some (s : String) : truthy (some s) = true ↔ s ≠ "" := by
  simp [truthy]

theorem indexOfFrom_nonneg_or (xs : List String) (x : String) (k : Nat) :
    (x ∈ xs ∧ (k : Int) ≤ indexOfFrom xs x k) ∨ (x ∉ xs ∧ indexOfFrom xs x k = -1) := by
  induction xs generalizing k with
  | nil => right; simp [indexOfFrom]
  | cons y ys ih =>
    unfold indexOfFrom
    by_cases hy : y = x
    · left; simp [hy]
    · rw [if_neg hy]
      rcases ih (k + 1) with ⟨hm, hle⟩ | ⟨hm, he⟩
      · left; exact ⟨List.mem_cons_of_mem _ hm, by push_cast at hle; omega⟩
      · right; exact ⟨by simp [hm, Ne.symm hy], he⟩

/-- The test `indexOf(x) !== -1` is membership. -/
theorem indexOf_ne_iff_mem (xs : List String) (x : String) : indexOf xs x ≠ -1 ↔ x ∈ xs := by
  unfold indexOf
  rcases indexOfFrom_nonneg_or xs x 0 with ⟨hm, hle⟩ | ⟨hm, he⟩
  · exact ⟨fun _ => hm, fun _ => by omega⟩
  · exact ⟨fun h => absurd he h, fun h => absurd h hm⟩

theorem corsOrigin_some (allowed : List String) (o : String) {α : Type}
    (callback : Option Error → Bool → α) :
    corsOrigin allowed (some o) callback =
      if o = "" ∨ o ∈ allowed then callback none true
      else callback (some ⟨"CORS policy: This origin is not allowed: " ++ o⟩) false := by
  unfold corsOrigin
  by_cases h1 : o = ""
  · simp [h1, truthy]
  · have ht : truthy (some o) = true := (truthy_some o).2 h1
    by_cases h2 : o ∈ allowed
    · simp [ht, h2, (indexOf_ne_iff_mem allowed o).2 h2]
    · have h3 : indexOf allowed o = -1 := by
        by_contra h; exact h2 ((indexOf_ne_iff_mem allowed o).1 h)
      simp [ht, h1, h2, h3]

theorem splitChars_ne_nil (sep : Char) (cs : List Char) : splitChars sep cs ≠ [] := by
  cases cs with
  | nil => simp [splitChars]
  | cons c cs =>
    unfold splitChars
    split_ifs
    · simp
    · split <;> simp

theorem splitChars_no_sep (sep : Char) (cs : List Char) :
    ∀ p ∈ splitChars sep cs, sep ∉ p := by
  induction cs with
  | nil => simp [splitChars]
  | cons c cs ih =>
    unfold splitChars
    split_ifs with hc
    · intro p hp
      rcases List.mem_cons.1 hp with rfl | hp
      · simp
      · exact ih p hp
    · split
      · intro p hp
        simp only [List.mem_singleton] at hp
        subst hp
        simpa using Ne.symm hc
      · rename_i q qs heq
        intro p hp
        rw [heq] at ih
        rcases List.mem_cons.1 hp with rfl | hp
        · intro hmem
          rcases List.mem_cons.1 hmem with h | h
          · exact hc h.symm
          · exact ih q (List.mem_cons_self _ _) h
        · exact ih p (List.mem_cons_of_mem _ hp)

theorem mem_trim_data (s : String) (c : Char) (h : c ∈ (trim s).data) : c ∈ s.data := by
  unfold trim at h
  simp only [List.mem_reverse] at h
  exact (List.dropWhile_sublist _).subset ((List.dropWhile_sublist _).subset h |> List.mem_reverse.1)

theorem digitChar_facts : ∀ k, k < 10 →
    (Nat.digitChar k).isDigit = true ∧ isWhiteSpace (Nat.digitChar k) = false ∧
    (Nat.digitChar k).toNat - '0'.toNat = k := by
  decide

theorem digitsValue_append_singleton (ds : List Char) (c : Char) :
    digitsValue (ds ++ [c]) = 10 * digitsValue ds + (c.toNat - '0'.toNat) := by
  simp [digitsValue, List.foldl_append]

/-- The digits pushed by the loop of `Nat.toDigits`: a non-empty run of decimal digit
characters whose value is the number printed. -/
theorem toDigitsCore_spec (fuel : Nat) : ∀ (n : Nat) (ds : List Char), n < fuel →
    ∃ pre, Nat.toDigitsCore 10 fuel n ds = pre ++ ds ∧ pre ≠ [] ∧
      (∀ c ∈ pre, ∃ k, k < 10 ∧ c = Nat.digitChar k) ∧ digitsValue pre = n := by
  induction fuel with
  | zero => intro n ds h; omega
  | succ fuel ih =>
    intro n ds h
    unfold Nat.toDigitsCore
    by_cases h0 : n / 10 = 0
    · refine ⟨[Nat.digitChar (n % 10)], by simp [h0], by simp, ?_, ?_⟩
      · intro c hc
        exact ⟨n % 10, Nat.mod_lt _ (by decide), by simpa using hc⟩
      · have h1 := (digitChar_facts (n % 10) (Nat.mod_lt _ (by decide))).2.2
        have h2 := digitsValue_append_singleton [] (Nat.digitChar (n % 10))
        simp only [List.nil_append] at h2
        rw [h2, h1]
        simp only [digitsValue, List.foldl_nil]
        omega
    · have hlt : n / 10 < fuel := by omega
      obtain ⟨pre, hpre, -, hdig, hval⟩ := ih (n / 10) (Nat.digitChar (n % 10) :: ds) hlt
      refine ⟨pre ++ [Nat.digitChar (n % 10)], by simp [h0, hpre], by simp, ?_, ?_⟩
      · intro c hc
        rcases List.mem_append.1 hc with hc | hc
        · exact hdig c hc
        · exact ⟨n % 10, Nat.mod_lt _ (by decide), by simpa using hc⟩
      · rw [digitsValue_append_singleton, hval,
          (digitChar_facts (n % 10) (Nat.mod_lt _ (by decide))).2.2]
        omega

theorem repr_data_spec (n : Nat) :
    (Nat.repr n).data ≠ [] ∧ (∀ c ∈ (Nat.repr n).data, ∃ k, k < 10 ∧ c = Nat.digitChar k) ∧
      digitsValue (Nat.repr n).data = n := by
  obtain ⟨pre, hpre, hne, hdig, hval⟩ := toDigitsCore_spec (n + 1) n [] (Nat.lt_succ_self n)
  have hd : (Nat.repr n).data = pre := by
    simp [Nat.repr, Nat.toDigits, List.asString, hpre]
  rw [hd]
  exact ⟨hne, hdig, hval⟩

theorem dropWhile_eq_self_of_head {p : Char → Bool} :
    ∀ (l : List Char), (∀ c ∈ l, p c = false) → l.dropWhile p = l
  | [], _ => rfl
  | c :: cs, h => by simp [List.dropWhile, h c (List.mem_cons_self _ _)]

theorem trim_repr (n : Nat) : (trim (Nat.repr n)).data = (Nat.repr n).data := by
  obtain ⟨-, hdig, -⟩ := repr_data_spec n
  have hws : ∀ c ∈ (Nat.repr n).data, isWhiteSpace c = false := by
    intro c hc
    obtain ⟨k, hk, rfl⟩ := hdig c hc
    exact (digitChar_facts k hk).2.1
  unfold trim
  simp only
  rw [dropWhile_eq_self_of_head _ hws,
    dropWhile_eq_self_of_head _ (fun c hc => hws c (List.mem_reverse.1 hc)), List.reverse_reverse]

/-- On the decimal numeral of a natural number below `2 ^ 53`, `Number` returns that number. -/
theorem Number_repr (n : Nat) (h : n < 2 ^ 53) : Number (some (Nat.repr n)) = some (.num n) := by
  obtain ⟨hne, hdig, hval⟩ := repr_data_spec n
  have hall : (Nat.repr n).data.all Char.isDigit = true := by
    rw [List.all_eq_true]
    intro c hc
    obtain ⟨k, hk, rfl⟩ := hdig c hc
    exact (digitChar_facts k hk).1
  unfold Number
  simp only [trim_repr, hne, hall, hval, h, if_true, if_false]

theorem startup_fulfilled_getLast (env : Env) :
    (startup env .fulfilled).steps.getLast? = some (.listen (PORT env)) := by
  simp [startup]

theorem listen_not_mem_of_not_fulfilled (env : Env) (db : Awaited) (h : db ≠ .fulfilled)
    (p : Option JSNumber) : Step.listen p ∉ (startup env db).steps := by
  cases db with
  | fulfilled => exact absurd rfl h
  | rejected e => simp [startup]
  | pending => simp [startup]

/-! ## The CORS origin function -/

/-- C1, as stated, fails: with `ALLOWED_ORIGINS` unset, an `Origin` header that is present
with the empty string as its value equals no element of the allowed-origins sequence, and the
origin function still calls back with `(null, true)`, not with an error. -/
theorem corsOrigin_empty_origin_allowed :
    "" ∉ allowedOrigins ⟨none, none, none⟩ ∧
    corsOrigin (allowedOrigins ⟨none, none, none⟩) (some "") recordCall = [(none, true)] ∧
    corsOrigin (allowedOrigins ⟨none, none, none⟩) (some "") recordCall ≠
      [(some ⟨"CORS policy: This origin is not allowed: " ++ ""⟩, false)] := by
  decide

/-- C1, amended: for every `ALLOWED_ORIGINS` configuration and every `Origin` header that is
present, not the empty string, and equal to no element of the allowed-origins sequence, the
origin function invokes its callback with an `Error` whose message is
`"CORS policy: This origin is not allowed: "` followed by the origin, and with `false`; it is
not invoked with `(null, true)`. -/
theorem corsOrigin_rejects_unlisted (env : Env) (origin : String) (hne : origin ≠ "")
    (hnot : origin ∉ allowedOrigins env) :
    (∀ (α : Type) (callback : Option Error → Bool → α),
      corsOrigin (allowedOrigins env) (some origin) callback =
        callback (some ⟨"CORS policy: This origin is not allowed: " ++ origin⟩) false) ∧
    (none, true) ∉ corsOrigin (allowedOrigins env) (some origin) recordCall := by
  have key : ∀ (α : Type) (callback : Option Error → Bool → α),
      corsOrigin (allowedOrigins env) (some origin) callback =
        callback (some ⟨"CORS policy: This origin is not allowed: " ++ origin⟩) false := by
    intro α callback
    rw [corsOrigin_some, if_neg (by simp [hne, hnot])]
  refine ⟨key, ?_⟩
  rw [key]
  simp [recordCall]

/-- C1, amended, at `ALLOWED_ORIGINS = "https://app.example, https://admin.example"` and
`Origin: http://evil.example`. -/
theorem corsOrigin_rejects_unlisted_witness :
    "http://evil.example" ≠ "" ∧
    "http://evil.example" ∉
      allowedOrigins ⟨none, some "https://app.example, https://admin.example", none⟩ ∧
    ((∀ (α : Type) (callback : Option Error → Bool → α),
      corsOrigin (allowedOrigins ⟨none, some "https://app.example, https://admin.example", none⟩)
          (some "http://evil.example") callback =
        callback (some ⟨"CORS policy: This origin is not allowed: " ++ "http://evil.example"⟩)
          false) ∧
    (none, true) ∉
      corsOrigin (allowedOrigins ⟨none, some "https://app.example, https://admin.example", none⟩)
        (some "http://evil.example") recordCall) :=
  ⟨by decide, by decide,
    corsOrigin_rejects_unlisted ⟨none, some "https://app.example, https://admin.example", none⟩
      "http://evil.example" (by decide) (by decide)⟩

/-- C2: for every `ALLOWED_ORIGINS` configuration and every `Origin` header that is equal, as a
string, to an element of the allowed-origins sequence, the origin function invokes its
callback with `(null, true)` and with no error. -/
theorem corsOrigin_allows_listed (env : Env) (origin : String)
    (hmem : origin ∈ allowedOrigins env) :
    (∀ (α : Type) (callback : Option Error → Bool → α),
      corsOrigin (allowedOrigins env) (some origin) callback = callback none true) ∧
    corsOrigin (allowedOrigins env) (some origin) recordCall = [(none, true)] ∧
    ∀ (e : Error) (b : Bool),
      (some e, b) ∉ corsOrigin (allowedOrigins env) (some origin) recordCall := by
  have key : ∀ (α : Type) (callback : Option Error → Bool → α),
      corsOrigin (allowedOrigins env) (some origin) callback = callback none true := by
    intro α callback
    rw [corsOrigin_some, if_pos (Or.inr hmem)]
  refine ⟨key, by rw [key]; rfl, ?_⟩
  intro e b
  rw [key]
  simp [recordCall]

/-- C2 at `ALLOWED_ORIGINS = "https://app.example, https://admin.example"` and
`Origin: https://admin.example`. -/
theorem corsOrigin_allows_listed_witness :
    "https://admin.example" ∈
      allowedOrigins ⟨none, some "https://app.example, https://admin.example", none⟩ ∧
    ((∀ (α : Type) (callback : Option Error → Bool → α),
      corsOrigin (allowedOrigins ⟨none, some "https://app.example, https://admin.example", none⟩)
          (some "https://admin.example") callback = callback none true) ∧
    corsOrigin (allowedOrigins ⟨none, some "https://app.example, https://admin.example", none⟩)
        (some "https://admin.example") recordCall = [(none, true)] ∧
    ∀ (e : Error) (b : Bool),
      (some e, b) ∉
        corsOrigin (allowedOrigins ⟨none, some "https://app.example, https://admin.example", none⟩)
          (some "https://admin.example") recordCall) :=
  ⟨by decide,
    corsOrigin_allows_listed ⟨none, some "https://app.example, https://admin.example", none⟩
      "https://admin.example" (by decide)⟩

/-- C3: whatever the allowed-origins sequence is, a request without an `Origin` header
(`origin` is `undefined`) is allowed: the callback is invoked with `(null, true)`, and the
sequence plays no part in the call. -/
theorem corsOrigin_no_origin (allowed : List String) :
    (∀ (α : Type) (callback : Option Error → Bool → α),
      corsOrigin allowed none callback = callback none true) ∧
    corsOrigin allowed none recordCall = [(none, true)] :=
  ⟨fun _ _ => rfl, rfl⟩

/-- C4: for every value of `ALLOWED_ORIGINS` (unset, empty or any string) the allowed-origins
sequence is non-empty and no element of it contains a comma. -/
theorem allowedOrigins_nonempty_no_comma (env : Env) :
    allowedOrigins env ≠ [] ∧ ∀ s ∈ allowedOrigins env, ',' ∉ s.data := by
  constructor
  · simp [allowedOrigins, split, splitChars_ne_nil]
  · intro s hs hc
    simp only [allowedOrigins, split, List.map_map, List.mem_map, Function.comp] at hs
    obtain ⟨p, hp, rfl⟩ := hs
    exact splitChars_no_sep ',' _ p hp (mem_trim_data _ _ hc)

/-- C4 at `ALLOWED_ORIGINS = ""` (the default applies) and at `" a , b,,"`. -/
theorem allowedOrigins_nonempty_no_comma_witness :
    allowedOrigins ⟨none, some "", none⟩ ≠ [] ∧
    "b" ∈ allowedOrigins ⟨none, some " a , b,,", none⟩ ∧ ',' ∉ "b".data :=
  ⟨(allowedOrigins_nonempty_no_comma ⟨none, some "", none⟩).1, by decide,
    (allowedOrigins_nonempty_no_comma ⟨none, some " a , b,,", none⟩).2 "b" (by decide)⟩

/-- C5: the test `allowedOrigins.indexOf(origin) !== -1` is membership of the origin in the
sequence, so the call made by the origin function is the same for two allowed-origins
sequences that are permutations of one another, for every origin (absent ones included). -/
theorem corsOrigin_perm (origin : Option String) (xs ys : List String) (h : xs.Perm ys) :
    (∀ o : String, indexOf xs o ≠ -1 ↔ o ∈ xs) ∧
    (∀ o : String, indexOf xs o ≠ -1 ↔ indexOf ys o ≠ -1) ∧
    ∀ (α : Type) (callback : Option Error → Bool → α),
      corsOrigin xs origin callback = corsOrigin ys origin callback := by
  refine ⟨indexOf_ne_iff_mem xs, fun o => ?_, fun α callback => ?_⟩
  · rw [indexOf_ne_iff_mem, indexOf_ne_iff_mem, h.mem_iff]
  · cases origin with
    | none => rfl
    | some o => simp only [corsOrigin_some, h.mem_iff]

/-- C5 at the sequences `["a", "b", "c"]` and `["c", "a", "b"]` and the origin `"c"`. -/
theorem corsOrigin_perm_witness :
    (["a", "b", "c"] : List String).Perm ["c", "a", "b"] ∧
    ((∀ o : String, indexOf ["a", "b", "c"] o ≠ -1 ↔ o ∈ ["a", "b", "c"]) ∧
    (∀ o : String, indexOf ["a", "b", "c"] o ≠ -1 ↔ indexOf ["c", "a", "b"] o ≠ -1) ∧
    ∀ (α : Type) (callback : Option Error → Bool → α),
      corsOrigin ["a", "b", "c"] (some "c") callback =
        corsOrigin ["c", "a", "b"] (some "c") callback) :=
  ⟨by decide, corsOrigin_perm (some "c") ["a", "b", "c"] ["c", "a", "b"] (by decide)⟩

/-- C6: with `ALLOWED_ORIGINS` unset the allowed-origins sequence is
`["http://localhost:3000"]`; a request with `Origin: http://localhost:3000` is allowed and one
with `Origin: http://evil.example` is rejected with an error whose message names
`http://evil.example`. -/
theorem default_origins_scenario (nodeEnv port : Option String) :
    allowedOrigins ⟨nodeEnv, none, port⟩ = ["http://localhost:3000"] ∧
    corsOrigin (allowedOrigins ⟨nodeEnv, none, port⟩) (some "http://localhost:3000") recordCall =
      [(none, true)] ∧
    corsOrigin (allowedOrigins ⟨nodeEnv, none, port⟩) (some "http://evil.example") recordCall =
      [(some ⟨"CORS policy: This origin is not allowed: http://evil.example"⟩, false)] := by
  have h : allowedOrigins ⟨nodeEnv, none, port⟩ = ["http://localhost:3000"] := rfl
  rw [h]
  decide

/-! ## The listening port -/

/-- C7, as stated, fails at the port number `0`: with `PORT=0` the value `Number("0")` is
falsy, so the port passed to `listen` is `5000`, not `0`. -/
theorem PORT_zero_falls_back :
    Nat.repr 0 = "0" ∧
    PORT ⟨none, none, some (Nat.repr 0)⟩ = some (.num 5000) ∧
    PORT ⟨none, none, some (Nat.repr 0)⟩ ≠ some (.num 0) ∧
    (startup ⟨none, none, some (Nat.repr 0)⟩ .fulfilled).steps.getLast? =
      some (.listen (some (.num 5000))) := by
  decide

/-- C7, amended: for every `PORT` value that is the decimal numeral of a port number `n` with
`1 ≤ n ≤ 65535`, the constant `PORT` is `n` and `n` is what `listen` is called with
(`PORT=8080` gives `8080`, not `5000`); when `PORT` is unset, `listen` is called with `5000`. -/
theorem PORT_configured (nodeEnv origins : Option String) :
    (∀ n : Nat, 1 ≤ n → n ≤ 65535 →
      PORT ⟨nodeEnv, origins, some (Nat.repr n)⟩ = some (.num n) ∧
      (startup ⟨nodeEnv, origins, some (Nat.repr n)⟩ .fulfilled).steps.getLast? =
        some (.listen (some (.num n)))) ∧
    PORT ⟨nodeEnv, origins, some "8080"⟩ = some (.num 8080) ∧
    PORT ⟨nodeEnv, origins, none⟩ = some (.num 5000) ∧
    (startup ⟨nodeEnv, origins, none⟩ .fulfilled).steps.getLast? =
      some (.listen (some (.num 5000))) := by
  have hport : ∀ n : Nat, 1 ≤ n → n ≤ 65535 →
      PORT ⟨nodeEnv, origins, some (Nat.repr n)⟩ = some (.num n) := by
    intro n h1 h2
    have hn : Number (some (Nat.repr n)) = some (.num n) :=
      Number_repr n (lt_of_le_of_lt h2 (by norm_num))
    have h0 : ¬ n = 0 := by omega
    simp [PORT, hn, JSNumber.truthy, h0]
  have hunset : PORT ⟨nodeEnv, origins, none⟩ = some (.num 5000) := rfl
  refine ⟨fun n h1 h2 => ⟨hport n h1 h2, ?_⟩, ?_, hunset, ?_⟩
  · rw [startup_fulfilled_getLast, hport n h1 h2]
  · exact hport 8080 (by norm_num) (by norm_num)
  · rw [startup_fulfilled_getLast, hunset]

/-- C7, amended, at `PORT=443`. -/
theorem PORT_configured_witness :
    1 ≤ 443 ∧ 443 ≤ 65535 ∧
    PORT ⟨none, none, some (Nat.repr 443)⟩ = some (.num 443) ∧
    (startup ⟨none, none, some (Nat.repr 443)⟩ .fulfilled).steps.getLast? =
      some (.listen (some (.num 443))) :=
  ⟨by decide, by decide, (PORT_configured none none).1 443 (by decide) (by decide)⟩

/-! ## The inline handlers -/

/-- C8, as stated, fails when `NODE_ENV` is set to the empty string: the `env` field of the
body is `"development"`, not the current value `""`. -/
theorem healthHandler_empty_env :
    (healthHandler ⟨"GET", "/", [], []⟩ Response.fresh ⟨some "", none, none⟩).1.body =
      some (.json [("status", "ok"), ("env", "development")]) ∧
    (healthHandler ⟨"GET", "/", [], []⟩ Response.fresh ⟨some "", none, none⟩).1.body ≠
      some (.json [("status", "ok"), ("env", "")]) := by
  decide

/-- C8, amended: for every value of `NODE_ENV`, the `GET /` handler responds with a JSON body
whose `status` field is `"ok"` and whose `env` field is the value of `NODE_ENV` when that is a
non-empty string, and `"development"` when `NODE_ENV` is unset or the empty string; the
response does not depend on the request, and the environment, the status code and the cookies
of the response are left as they were. -/
theorem healthHandler_body (req : Request) (res : Response) (env : Env) :
    (∀ s : String, env.NODE_ENV = some s → s ≠ "" →
      (healthHandler req res env).1.body = some (.json [("status", "ok"), ("env", s)])) ∧
    (env.NODE_ENV = none ∨ env.NODE_ENV = some "" →
      (healthHandler req res env).1.body =
        some (.json [("status", "ok"), ("env", "development")])) ∧
    (∀ req2 : Request, healthHandler req2 res env = healthHandler req res env) ∧
    (healthHandler req res env).2 = env ∧
    (healthHandler req res env).1.statusCode = res.statusCode ∧
    (healthHandler req res env).1.cookies = res.cookies := by
  refine ⟨?_, ?_, fun _ => rfl, rfl, rfl, rfl⟩
  · intro s hs hne
    simp [healthHandler, orDefault, hs, (truthy_some s).2 hne]
  · rintro (h | h) <;> simp [healthHandler, orDefault, h, truthy]

/-- C8, amended, at `NODE_ENV=staging` and at `NODE_ENV` unset. -/
theorem healthHandler_body_witness :
    (healthHandler ⟨"GET", "/", [], []⟩ Response.fresh ⟨some "staging", none, none⟩).1.body =
      some (.json [("status", "ok"), ("env", "staging")]) ∧
    (healthHandler ⟨"GET", "/", [], []⟩ Response.fresh ⟨none, none, none⟩).1.body =
      some (.json [("status", "ok"), ("env", "development")]) :=
  ⟨(healthHandler_body ⟨"GET", "/", [], []⟩ Response.fresh ⟨some "staging", none, none⟩).1
      "staging" rfl (by decide),
    (healthHandler_body ⟨"GET", "/", [], []⟩ Response.fresh ⟨none, none, none⟩).2.1
      (Or.inl rfl)⟩

/-- C9: for every value of `NODE_ENV`, the `GET /set-test-cookie` handler sets exactly one
cookie, named `"test"` with value `"1"`, and the cookie's `secure` attribute is true if and only
if `NODE_ENV` is exactly `"production"`. -/
theorem setTestCookieHandler_cookie (req : Request) (res : Response) (env : Env) :
    (∃ c : Cookie,
      (setTestCookieHandler req res env).1.cookies = res.cookies ++ [c] ∧
      c.name = "test" ∧ c.value = "1" ∧
      (c.options.secure = true ↔ env.NODE_ENV = some "production")) ∧
    (setTestCookieHandler req Response.fresh env).1.cookies.length = 1 ∧
    (setTestCookieHandler req res env).2 = env := by
  refine ⟨⟨_, rfl, rfl, rfl, ?_⟩, rfl, rfl⟩
  simp

/-! ## The start-up sequence -/

/-- C10: if the awaited database connection rejects, the start-up aborts with that very
failure after the `connectDB` call and `listen` is not called; `listen` is among the executed
statements only if the connection was fulfilled, and the run ends listening only if the
connection was fulfilled. When it was fulfilled, `listen` is the last statement, called with
`PORT`: the run ends listening for a port number up to `65535`, and `listen` throws
`ERR_SOCKET_BAD_PORT` for a larger one. -/
theorem startup_listen_iff_connected (env : Env) (db : Awaited) :
    (∀ e : Error, db = .rejected e →
      (startup env db).outcome = some (.aborted e) ∧
      (startup env db).steps = [.dotenvConfig, .connectDB] ∧
      ∀ p, Step.listen p ∉ (startup env db).steps) ∧
    (∀ p, Step.listen p ∈ (startup env db).steps → db = .fulfilled) ∧
    ((startup env db).outcome = some .listening → db = .fulfilled) ∧
    (db = .fulfilled →
      (startup env db).steps.getLast? = some (.listen (PORT env)) ∧
      (startup env db).steps.take 2 = [.dotenvConfig, .connectDB] ∧
      ∀ n : Nat, PORT env = some (.num n) →
        (n ≤ 65535 → (startup env db).outcome = some .listening) ∧
        (65535 < n → (startup env db).outcome = some (.badPort (.num n)))) := by
  refine ⟨?_, ?_, ?_, ?_⟩
  · rintro e rfl
    exact ⟨rfl, rfl, fun p => listen_not_mem_of_not_fulfilled env _ (by simp) p⟩
  · intro p hp
    by_contra hne
    exact listen_not_mem_of_not_fulfilled env db hne p hp
  · intro h
    cases db with
    | fulfilled => rfl
    | rejected e => simp [startup] at h
    | pending => simp [startup] at h
  · rintro rfl
    refine ⟨startup_fulfilled_getLast env, ?_, ?_⟩
    · simp only [startup]
      split_ifs <;> rfl
    · intro n hn
      constructor
      · intro hle
        simp [startup, hn, isLegalPort, hle]
      · intro hlt
        have hnle : ¬ n ≤ 65535 := by omega
        simp [startup, hn, isLegalPort, hnle]

/-- C10 at a rejected connection (`ECONNREFUSED`), at a fulfilled one with `PORT` unset, and
at a fulfilled one with `PORT=65536`. -/
theorem startup_listen_iff_connected_witness :
    ((startup ⟨none, none, none⟩ (.rejected ⟨"ECONNREFUSED"⟩)).outcome =
        some (.aborted ⟨"ECONNREFUSED"⟩) ∧
      (startup ⟨none, none, none⟩ (.rejected ⟨"ECONNREFUSED"⟩)).steps =
        [.dotenvConfig, .connectDB] ∧
      ∀ p, Step.listen p ∉ (startup ⟨none, none, none⟩ (.rejected ⟨"ECONNREFUSED"⟩)).steps) ∧
    Step.listen (some (.num 5000)) ∈ (startup ⟨none, none, none⟩ .fulfilled).steps ∧
    (startup ⟨none, none, none⟩ .fulfilled).outcome = some .listening ∧
    (startup ⟨none, none, some "65536"⟩ .fulfilled).outcome =
      some (.badPort (.num 65536)) :=
  ⟨(startup_listen_iff_connected ⟨none, none, none⟩ (.rejected ⟨"ECONNREFUSED"⟩)).1
      ⟨"ECONNREFUSED"⟩ rfl,
    by decide,
    ((startup_listen_iff_connected ⟨none, none, none⟩ .fulfilled).2.2.2 rfl).2.2 5000
      (by decide) |>.1 (by decide),
    ((startup_listen_iff_connected ⟨none, none, some "65536"⟩ .fulfilled).2.2.2 rfl).2.2 65536
      (by decide) |>.2 (by decide)⟩

end Server
